import Mathlib

/-!
YuNet face-detection demo: overlay renderer, report and pipelines.

A shallow embedding of `face_detection_yunet1.cpp`.

* `float`/`double` values are modelled by their exact value `num / 2 ^ scale`
  (`FloatValue`); every finite IEEE-754 value has this form.  NaN, the
  infinities and negative zero are outside the model.
* `int` is the 32-bit two's complement type: `static_cast<int>` yields the
  truncated value when `int` can hold it and `INT_MIN` otherwise (what the x86
  conversion instructions give; the C++ standard leaves it undefined), and
  `int` arithmetic wraps modulo `2 ^ 32`.
* A `cv::Mat` holding an image is a pixel buffer together with the list of
  drawing calls that were applied to it; OpenCV's rasterisation is not modelled.
* The face table is a list of rows; `faces.at<float>(i, c)` outside the matrix
  is a fault (`none`).  Every `at<float>` access is also appended to a ghost
  read log, so that the access pattern of the code can be stated.
* The calls of `main` into OpenCV and the standard streams are recorded, in
  program order, as a list of `Event`s; what those calls answer is given by an
  `Env`.
-/

namespace YuNetDemo

/-! ## Numeric values -/

/-- The exact value `num / 2 ^ scale` of a finite `float` or `double`. -/
structure FloatValue where
  num : Int
  scale : Nat
deriving DecidableEq, Repr

/-- The rational number a `FloatValue` stands for. -/
def FloatValue.toRat (x : FloatValue) : ℚ := (x.num : ℚ) / (2 : ℚ) ^ x.scale

/-- The least value of `int`. -/
def INT_MIN : Int := -2147483648

/-- The greatest value of `int`. -/
def INT_MAX : Int := 2147483647

/-- The value with its fraction discarded: truncation toward zero. -/
def FloatValue.trunc (x : FloatValue) : Int := Int.tdiv x.num (2 ^ x.scale)

/-- The conversion `static_cast<int>(x)` of a `float` or `double`: the truncated
value when `int` can hold it; otherwise (undefined in C++) the value the x86
conversion instructions give, `INT_MIN`. -/
def static_cast_int (x : FloatValue) : Int :=
  if INT_MIN ≤ x.trunc ∧ x.trunc ≤ INT_MAX then x.trunc else INT_MIN

/-- The 32-bit two's complement value congruent to `n` modulo `2 ^ 32`. -/
def wrapInt (n : Int) : Int := (n - INT_MIN) % 4294967296 + INT_MIN

/-- The sum `a + b` of two `int`s. -/
def int_add (a b : Int) : Int := wrapInt (a + b)

/-- The difference `a - b` of two `int`s. -/
def int_sub (a b : Int) : Int := wrapInt (a - b)

/-- The quotient `a / b` of two `int`s: division truncating toward zero. -/
def int_div (a b : Int) : Int := wrapInt (Int.tdiv a b)

/-- The comparison `x >= 0` on a `float`. -/
def FloatValue.geZero (x : FloatValue) : Bool := decide (0 ≤ x.num)

/-- The quotient `n / d` rounded to the nearest integer, ties to even. -/
def roundHalfEven (n d : Nat) : Nat :=
  let q := n / d
  let r := n % d
  if 2 * r < d then q else if d < 2 * r then q + 1 else if q % 2 = 0 then q else q + 1

/-- Left-pads `s` with `'0'` up to `width` characters. -/
def padZeros (width : Nat) (s : String) : String :=
  String.mk (List.replicate (width - s.length) '0') ++ s

/-- The conversion `%.<prec>f` of `printf` (as used through `cv::format`): the
exact value rounded to `prec` decimals, ties to even. -/
def formatFixed (prec : Nat) (x : FloatValue) : String :=
  let m := roundHalfEven (x.num.natAbs * 10 ^ prec) (2 ^ x.scale)
  let sign := if x.num < 0 then "-" else ""
  if prec = 0 then sign ++ Nat.repr m
  else sign ++ Nat.repr (m / 10 ^ prec) ++ "." ++ padZeros prec (Nat.repr (m % 10 ^ prec))

/-- The conversion `%d` of `printf`. -/
def formatInt (n : Int) : String :=
  if n < 0 then "-" ++ Nat.repr n.natAbs else Nat.repr n.natAbs

/-! ## OpenCV value types -/

/-- The type `cv::Scalar`: four channels. -/
structure Scalar where
  v0 : Int
  v1 : Int
  v2 : Int
  v3 : Int
deriving DecidableEq, Repr

/-- The constructor `cv::Scalar(v0, v1, v2)`; the fourth channel is 0. -/
def Scalar.mk3 (v0 v1 v2 : Int) : Scalar := ⟨v0, v1, v2, 0⟩

/-- The type `cv::Point`. -/
structure Point where
  x : Int
  y : Int
deriving DecidableEq, Repr

/-- The type `cv::Rect`. -/
structure Rect where
  x : Int
  y : Int
  width : Int
  height : Int
deriving DecidableEq, Repr

/-- The type `cv::Size`. -/
structure Size where
  width : Int
  height : Int
deriving DecidableEq, Repr

/-- The two font faces the program uses. -/
inductive HersheyFont where
  | FONT_HERSHEY_SIMPLEX
  | FONT_HERSHEY_DUPLEX
deriving DecidableEq, Repr

/-- A drawing call applied to an image. -/
inductive DrawOp where
  | putText (text : String) (org : Point) (fontFace : HersheyFont)
      (fontScale : FloatValue) (color : Scalar)
  | rectangle (rec : Rect) (color : Scalar)
  | circle (center : Point) (radius : Int) (color : Scalar) (thickness : Int)
deriving DecidableEq, Repr

/-- An image `cv::Mat`: its pixel buffer and the drawing calls applied to it so far. -/
structure Image where
  rows : Nat
  cols : Nat
  pixels : List Nat
  drawn : List DrawOp
deriving DecidableEq, Repr

/-- The test `image.empty()`: the matrix has no element. -/
def Image.empty (image : Image) : Bool := image.rows * image.cols == 0

/-- The call `image.size()`. -/
def Image.size (image : Image) : Size := ⟨image.cols, image.rows⟩

/-- The call `image.clone()`: a deep copy. -/
def Image.clone (image : Image) : Image := image

/-- Appends drawing calls to an image. -/
def Image.draw (image : Image) (ops : List DrawOp) : Image :=
  { image with drawn := image.drawn ++ ops }

/-- The call `cv::putText(img, text, org, fontFace, fontScale, color)`. -/
def putText (img : Image) (text : String) (org : Point) (fontFace : HersheyFont)
    (fontScale : FloatValue) (color : Scalar) : Image :=
  img.draw [DrawOp.putText text org fontFace fontScale color]

/-- The call `cv::rectangle(img, rec, color)`. -/
def rectangle (img : Image) (rec : Rect) (color : Scalar) : Image :=
  img.draw [DrawOp.rectangle rec color]

/-- The call `cv::circle(img, center, radius, color, thickness)`. -/
def circle (img : Image) (center : Point) (radius : Int) (color : Scalar)
    (thickness : Int) : Image :=
  img.draw [DrawOp.circle center radius color thickness]

/-! ## The face table -/

/-- The detection table `cv::Mat` of `float`: one row per face. -/
structure Mat where
  data : List (List FloatValue)
deriving DecidableEq, Repr

/-- The field `faces.rows`. -/
def Mat.rows (faces : Mat) : Nat := faces.data.length

/-- One access `at<float>(row, col)`, as recorded in the ghost read log. -/
structure Access where
  row : Nat
  col : Nat
deriving DecidableEq, Repr

/-- Computations that read the face table: the state is the ghost read log,
`none` is an access outside the matrix. -/
abbrev Reads := StateT (List Access) Option

/-- The access `faces.at<float>(i, c)`. -/
def Mat.at_float (faces : Mat) (i c : Nat) : Reads FloatValue :=
  fun log =>
    match faces.data[i]? with
    | none => none
    | some row =>
      match row[c]? with
      | none => none
      | some v => some (v, log ++ [⟨i, c⟩])

/-- The loop `for (int i = start; i < start + count; ++i) state = body(i, state)`. -/
def forLoop {σ : Type} (body : Nat → σ → Reads σ) : Nat → Nat → σ → Reads σ
  | 0, _, s => pure s
  | count + 1, i, s => do
    let s1 ← body i s
    forLoop body count (i + 1) s1

/-! ## The overlay renderer (`visualize`, lines 55-104) -/

/-- The static `box_color{0, 255, 0}`. -/
def box_color : Scalar := Scalar.mk3 0 255 0

/-- The static `landmark_color` vector. -/
def landmark_color : List Scalar :=
  [ Scalar.mk3 255 0 0,     -- right eye
    Scalar.mk3 0 0 255,     -- left eye
    Scalar.mk3 0 255 0,     -- nose tip
    Scalar.mk3 255 0 255,   -- right mouth corner
    Scalar.mk3 0 255 255 ]  -- left mouth corner

/-- The literal `0.5` passed as font scale. -/
def fontScaleHalf : FloatValue := ⟨1, 1⟩

/-- The body of the landmark loop (lines 96-99) for face `i` and landmark `j`. -/
def landmarkBody (faces : Mat) (i j : Nat) (output_image : Image) : Reads Image := do
  let x := static_cast_int (← faces.at_float i (2 * j + 4))
  let y := static_cast_int (← faces.at_float i (2 * j + 5))
  match landmark_color[j]? with
  | none => failure
  | some color => pure (circle output_image ⟨x, y⟩ 2 color (-1))

/-- The body of the face loop (lines 75-100) for face `i`. -/
def faceBody (faces : Mat) (i : Nat) (output_image : Image) : Reads Image := do
  let x1 := static_cast_int (← faces.at_float i 0)
  let y1 := static_cast_int (← faces.at_float i 1)
  let w := static_cast_int (← faces.at_float i 2)
  let h := static_cast_int (← faces.at_float i 3)
  let output_image := rectangle output_image ⟨x1, y1, w, h⟩ box_color
  let conf ← faces.at_float i 14
  let output_image := putText output_image (formatFixed 4 conf)
    ⟨int_add x1 (int_div w 2), int_sub y1 10⟩
    HersheyFont.FONT_HERSHEY_DUPLEX fontScaleHalf box_color
  forLoop (landmarkBody faces i) landmark_color.length 0 output_image

/-- The function `visualize(image, faces, fps)`. -/
def visualize (image : Image) (faces : Mat) (fps : FloatValue) : Reads Image := do
  let output_image := image.clone
  let output_image :=
    if fps.geZero then
      putText output_image ("FPS: " ++ formatFixed 2 fps) ⟨0, 15⟩
        HersheyFont.FONT_HERSHEY_SIMPLEX fontScaleHalf box_color
    else output_image
  forLoop (faceBody faces) faces.rows 0 output_image

/-- The default `fps = -1.f` of `visualize`. -/
def fps_default : FloatValue := ⟨-1, 0⟩

/-! ## The detector adapter (`class YuNet`, lines 17-53) -/

/-- The DNN backends named in `str2backend`. -/
inductive Backend where
  | DNN_BACKEND_OPENCV
  | DNN_BACKEND_CUDA
  | DNN_BACKEND_TIMVX
  | DNN_BACKEND_CANN
deriving DecidableEq, Repr

/-- The DNN targets named in `str2target`. -/
inductive Target where
  | DNN_TARGET_CPU
  | DNN_TARGET_CUDA
  | DNN_TARGET_NPU
  | DNN_TARGET_CUDA_FP16
deriving DecidableEq, Repr

/-- The map `str2backend` (lines 7-10). -/
def str2backend : List (String × Backend) :=
  [("opencv", Backend.DNN_BACKEND_OPENCV), ("cuda", Backend.DNN_BACKEND_CUDA),
   ("timvx", Backend.DNN_BACKEND_TIMVX), ("cann", Backend.DNN_BACKEND_CANN)]

/-- The map `str2target` (lines 12-15). -/
def str2target : List (String × Target) :=
  [("cpu", Target.DNN_TARGET_CPU), ("cuda", Target.DNN_TARGET_CUDA),
   ("npu", Target.DNN_TARGET_NPU), ("cuda_fp16", Target.DNN_TARGET_CUDA_FP16)]

/-- The configuration held by a `YuNet` object. -/
structure YuNet where
  model_path_ : String
  input_size_ : Size
  conf_threshold_ : FloatValue
  nms_threshold_ : FloatValue
  top_k_ : Int
  backend_id_ : Backend
  target_id_ : Target
deriving DecidableEq, Repr

/-- The properties queried with `cap.get`. -/
inductive CapProp where
  | CAP_PROP_FRAME_WIDTH
  | CAP_PROP_FRAME_HEIGHT
deriving DecidableEq, Repr

/-- A call of the program into OpenCV or the standard streams. -/
inductive Event where
  | printMessage
  | create (net : YuNet)
  | imread (filename : String)
  | cerr (text : String)
  | cout (text : String)
  | setInputSize (input_size : Size)
  | detect (image : Image)
  | imwrite (filename : String) (img : Image)
  | namedWindow (winname : String)
  | imshow (winname : String) (mat : Image)
  | waitKey (delay : Int)
  | videoCapture (device_id : Int)
  | capGet (propId : CapProp)
  | capRead
  | tickStart
  | tickStop
  | tickGetFPS
  | tickReset
deriving DecidableEq, Repr

/-- An opened capture device. -/
structure Capture where
  /-- The answer of `cap.get(cv::CAP_PROP_FRAME_WIDTH)`. -/
  width : FloatValue
  /-- The answer of `cap.get(cv::CAP_PROP_FRAME_HEIGHT)`. -/
  height : FloatValue
  /-- The frame grabbed by the `k`-th call of `cap.read` (from 0), `none` when
  no frame is grabbed. -/
  read : Nat → Option Image

/-- What the world outside the program answers. -/
structure Env where
  /-- The image `cv::imread` loads from a path (an empty image on failure). -/
  imread : String → Image
  /-- The table `cv::FaceDetectorYN::detect` writes, for a detector
  configuration and an image. -/
  detect : YuNet → Image → Mat
  /-- The capture device 0; `none` when it cannot be opened. -/
  capture : Option Capture
  /-- The answer of the `k`-th call of `cv::waitKey` (from 0); negative when no
  key was pressed. -/
  waitKey : Nat → Int
  /-- The value `(float)tick_meter.getFPS()` in loop iteration `k` (from 0). -/
  getFPS : Nat → FloatValue

/-- The call `cap.get(propId)`; an unopened capture answers 0. -/
def capGet (cap : Option Capture) (propId : CapProp) : FloatValue :=
  match cap with
  | none => ⟨0, 0⟩
  | some c =>
    match propId with
    | CapProp.CAP_PROP_FRAME_WIDTH => c.width
    | CapProp.CAP_PROP_FRAME_HEIGHT => c.height

/-- The `k`-th call `cap.read(frame)`; an unopened capture grabs no frame. -/
def capRead (cap : Option Capture) (k : Nat) : Option Image :=
  match cap with
  | none => none
  | some c => c.read k

/-- The method `YuNet::setInputSize` (lines 33-36). -/
def YuNet.setInputSize (self : YuNet) (input_size : Size) : YuNet :=
  { self with input_size_ := input_size }

/-- The method `YuNet::infer` (lines 38-42): the table the detector writes is
returned as it is. -/
def YuNet.infer (self : YuNet) (env : Env) (image : Image) : Mat :=
  let res := env.detect self image
  res

/-! ## The program (`main`, lines 106-221) -/

/-- The parsed command line. -/
structure Options where
  help : Bool
  input : String
  model : String
  backend : String
  target : String
  save : Bool
  vis : Bool
  conf_threshold : FloatValue
  nms_threshold : FloatValue
  top_k : Int

/-- How a run ends. -/
inductive Outcome where
  /-- Function `main` returned this value. -/
  | returned (code : Int)
  /-- An uncaught `std::out_of_range` of `std::map::at`. -/
  | out_of_range
  /-- An `at<float>` access outside the matrix. -/
  | bad_access
  /-- The model ran out of fuel: the loop was still running. -/
  | out_of_fuel
deriving DecidableEq, Repr

/-- A run of the program: its calls in program order and how it ended. -/
structure Run where
  events : List Event
  outcome : Outcome
deriving DecidableEq, Repr

/-- The body of the report loop (lines 162-167) for face `i`. -/
def reportBody (faces : Mat) (i : Nat) (events : List Event) : Reads (List Event) := do
  let x1 := static_cast_int (← faces.at_float i 0)
  let y1 := static_cast_int (← faces.at_float i 1)
  let w := static_cast_int (← faces.at_float i 2)
  let h := static_cast_int (← faces.at_float i 3)
  let conf ← faces.at_float i 14
  pure (events ++ [Event.cout (formatInt i ++ ": x1=" ++ formatInt x1 ++ ", y1=" ++ formatInt y1
    ++ ", w=" ++ formatInt w ++ ", h=" ++ formatInt h ++ ", conf=" ++ formatFixed 4 conf ++ "\n")])

/-- The report (lines 159-168). -/
def report (faces : Mat) (events : List Event) : Reads (List Event) := do
  let events := events ++ [Event.cout (formatInt faces.rows ++ " faces detected:\n")]
  forLoop (reportBody faces) faces.rows 0 events

/-- The still-image branch (lines 146-185); falling off its end reaches
`return 0` (line 220). -/
def stillImage (opts : Options) (env : Env) (model : YuNet) (events : List Event) : Run :=
  let image := env.imread opts.input
  let events := events ++ [Event.imread opts.input]
  if image.empty then
    ⟨events ++ [Event.cerr ("Error: Could not open or find the image at " ++ opts.input ++ "\n")],
      Outcome.returned (-1)⟩
  else
    let model := model.setInputSize image.size
    let events := events ++ [Event.setInputSize image.size]
    let faces := model.infer env image
    let events := events ++ [Event.detect image]
    match (report faces events).run [] with
    | none => ⟨events, Outcome.bad_access⟩
    | some (events, _) =>
      match (visualize image faces fps_default).run [] with
      | none => ⟨events, Outcome.bad_access⟩
      | some (res_image, _) =>
        let events := events ++ [Event.imwrite "Output_IMgggg.jpeg" res_image]
        let events :=
          if opts.save then
            events ++ [Event.imwrite "Output_IMg.jpeg" res_image,
              Event.cout "Results saved to Output_IMg.jpeg\n"]
          else events
        let events :=
          if opts.vis then
            events ++ [Event.namedWindow "Face Detection Result",
              Event.imshow "Face Detection Result" res_image, Event.waitKey 0]
          else events
        ⟨events, Outcome.returned 0⟩

/-- The loop `while (cv::waitKey(1) < 0)` (lines 197-217), entered for
iteration `k`; leaving it reaches `return 0` (line 220). -/
def streamLoop (env : Env) (model : YuNet) : Nat → Nat → List Event → Run
  | 0, _, events => ⟨events, Outcome.out_of_fuel⟩
  | fuel + 1, k, events =>
    let events := events ++ [Event.waitKey 1]
    if env.waitKey k < 0 then
      let events := events ++ [Event.capRead]
      match capRead env.capture k with
      | none => ⟨events ++ [Event.cout "No frames grabbed! Exiting ...\n"], Outcome.returned 0⟩
      | some frame =>
        let events := events ++ [Event.tickStart]
        let faces := model.infer env frame
        let events := events ++ [Event.detect frame, Event.tickStop, Event.tickGetFPS]
        match (visualize frame faces (env.getFPS k)).run [] with
        | none => ⟨events, Outcome.bad_access⟩
        | some (res_image, _) =>
          streamLoop env model fuel (k + 1)
            (events ++ [Event.imshow "YuNet Demo" res_image, Event.tickReset])
    else ⟨events, Outcome.returned 0⟩

/-- The camera branch (lines 188-218). -/
def streaming (env : Env) (model : YuNet) (events : List Event) (fuel : Nat) : Run :=
  let device_id : Int := 0
  let cap := env.capture
  let events := events ++ [Event.videoCapture device_id]
  let w := static_cast_int (capGet cap CapProp.CAP_PROP_FRAME_WIDTH)
  let h := static_cast_int (capGet cap CapProp.CAP_PROP_FRAME_HEIGHT)
  let events := events ++ [Event.capGet CapProp.CAP_PROP_FRAME_WIDTH,
    Event.capGet CapProp.CAP_PROP_FRAME_HEIGHT]
  let model := model.setInputSize ⟨w, h⟩
  let events := events ++ [Event.setInputSize ⟨w, h⟩]
  streamLoop env model fuel 0 events

/-- The function `main` on a parsed command line; `fuel` bounds the number of
iterations of the streaming loop. -/
def main (opts : Options) (env : Env) (fuel : Nat) : Run :=
  if opts.help then ⟨[Event.printMessage], Outcome.returned 0⟩
  else
    match List.lookup opts.backend str2backend with
    | none => ⟨[], Outcome.out_of_range⟩
    | some backend_id =>
      match List.lookup opts.target str2target with
      | none => ⟨[], Outcome.out_of_range⟩
      | some target_id =>
        let model : YuNet := ⟨opts.model, ⟨320, 320⟩, opts.conf_threshold, opts.nms_threshold,
          opts.top_k, backend_id, target_id⟩
        let events := [Event.create model]
        if !opts.input.isEmpty then stillImage opts env model events
        else streaming env model events fuel

/-! ## Statement vocabulary: the expected drawing calls and reads -/

/-- The cell `(i, c)` of the table, with a default outside the matrix. -/
def Mat.cell (faces : Mat) (i c : Nat) : FloatValue :=
  (faces.data.getD i []).getD c ⟨0, 0⟩

/-- The marker of landmark `j` of face `i`. -/
def landmarkOp (faces : Mat) (i j : Nat) : DrawOp :=
  DrawOp.circle
    ⟨static_cast_int (faces.cell i (2 * j + 4)), static_cast_int (faces.cell i (2 * j + 5))⟩
    2 (landmark_color.getD j ⟨0, 0, 0, 0⟩) (-1)

/-- The bounding box of face `i`. -/
def boxOp (faces : Mat) (i : Nat) : DrawOp :=
  DrawOp.rectangle
    ⟨static_cast_int (faces.cell i 0), static_cast_int (faces.cell i 1),
     static_cast_int (faces.cell i 2), static_cast_int (faces.cell i 3)⟩
    ⟨0, 255, 0, 0⟩

/-- The confidence text of face `i`. -/
def confOp (faces : Mat) (i : Nat) : DrawOp :=
  DrawOp.putText (formatFixed 4 (faces.cell i 14))
    ⟨int_add (static_cast_int (faces.cell i 0)) (int_div (static_cast_int (faces.cell i 2)) 2),
     int_sub (static_cast_int (faces.cell i 1)) 10⟩
    HersheyFont.FONT_HERSHEY_DUPLEX ⟨1, 1⟩ ⟨0, 255, 0, 0⟩

/-- The seven drawing calls of face `i`, in order. -/
def faceOps (faces : Mat) (i : Nat) : List DrawOp :=
  [boxOp faces i, confOp faces i, landmarkOp faces i 0, landmarkOp faces i 1,
   landmarkOp faces i 2, landmarkOp faces i 3, landmarkOp faces i 4]

/-- The frame-rate label, when `fps >= 0`. -/
def fpsOps (fps : FloatValue) : List DrawOp :=
  if 0 ≤ fps.num then
    [DrawOp.putText ("FPS: " ++ formatFixed 2 fps) ⟨0, 15⟩
      HersheyFont.FONT_HERSHEY_SIMPLEX ⟨1, 1⟩ ⟨0, 255, 0, 0⟩]
  else []

/-- The columns `visualize` reads in one row, in program order. -/
def visualizeCols : List Nat := [0, 1, 2, 3, 14, 4, 5, 6, 7, 8, 9, 10, 11, 12, 13]

/-- Every row of the table has exactly 15 columns. -/
def Mat.Has15Cols (faces : Mat) : Prop := ∀ row ∈ faces.data, row.length = 15

/-- The integer `n` is a value of `int`. -/
abbrev fitsInt (n : Int) : Prop := INT_MIN ≤ n ∧ n ≤ INT_MAX

/-- The box columns 0..3 of row `i`, truncated, are values of `int`. -/
abbrev Mat.BoxInRange (faces : Mat) (i : Nat) : Prop :=
  fitsInt (faces.cell i 0).trunc ∧ fitsInt (faces.cell i 1).trunc ∧
  fitsInt (faces.cell i 2).trunc ∧ fitsInt (faces.cell i 3).trunc

/-- The anchor `(x1 + w / 2, y1 - 10)` of row `i` is a pair of values of `int`. -/
abbrev Mat.AnchorInRange (faces : Mat) (i : Nat) : Prop :=
  fitsInt ((faces.cell i 0).trunc + Int.tdiv (faces.cell i 2).trunc 2) ∧
  fitsInt ((faces.cell i 1).trunc - 10)

/-- The landmark columns 4..13 of row `i`, truncated, are values of `int`. -/
abbrev Mat.LandmarksInRange (faces : Mat) (i : Nat) : Prop :=
  ∀ j, j < 5 → fitsInt (faces.cell i (2 * j + 4)).trunc ∧
    fitsInt (faces.cell i (2 * j + 5)).trunc


/-- The columns the report reads in one row, in program order. -/
def reportCols : List Nat := [0, 1, 2, 3, 14]

/-- The report line of face `i`, without its newline. -/
def reportLine (faces : Mat) (i : Nat) : String :=
  formatInt i ++ ": x1=" ++ formatInt (static_cast_int (faces.cell i 0))
    ++ ", y1=" ++ formatInt (static_cast_int (faces.cell i 1))
    ++ ", w=" ++ formatInt (static_cast_int (faces.cell i 2))
    ++ ", h=" ++ formatInt (static_cast_int (faces.cell i 3))
    ++ ", conf=" ++ formatFixed 4 (faces.cell i 14)

/-- The image `visualize` returns on a table whose rows have 15 columns. -/
def rendered (image : Image) (faces : Mat) (fps : FloatValue) : Image :=
  image.draw (fpsOps fps ++ (List.range faces.rows).flatMap (faceOps faces))

/-- The calls of one full iteration of the streaming loop on `frame`. -/
def iterationEvents (env : Env) (model : YuNet) (frame : Image) (k : Nat) : List Event :=
  [Event.waitKey 1, Event.capRead, Event.tickStart, Event.detect frame, Event.tickStop,
   Event.tickGetFPS,
   Event.imshow "YuNet Demo" (rendered frame (env.detect model frame) (env.getFPS k)),
   Event.tickReset]

/-- The detector object `main` constructs (line 142). -/
def initialModel (opts : Options) (backend_id : Backend) (target_id : Target) : YuNet :=
  ⟨opts.model, ⟨320, 320⟩, opts.conf_threshold, opts.nms_threshold, opts.top_k,
    backend_id, target_id⟩

/-- Whether a drawing call is a circle. -/
def DrawOp.isCircle : DrawOp → Bool
  | DrawOp.circle _ _ _ _ => true
  | _ => false

/-- Whether a drawing call is one of those of the face loop: a rectangle, a
text in the duplex font, or a circle. -/
def DrawOp.isFaceOp : DrawOp → Bool
  | DrawOp.rectangle _ _ => true
  | DrawOp.putText _ _ HersheyFont.FONT_HERSHEY_DUPLEX _ _ => true
  | DrawOp.circle _ _ _ _ => true
  | _ => false

/-- The frame-rate label for `fps`. -/
def fpsLabel (fps : FloatValue) : DrawOp :=
  DrawOp.putText ("FPS: " ++ formatFixed 2 fps) ⟨0, 15⟩
    HersheyFont.FONT_HERSHEY_SIMPLEX ⟨1, 1⟩ ⟨0, 255, 0, 0⟩

/-- The image `s2` is `s1` with further face-loop drawing calls. -/
def Image.Grows (s1 s2 : Image) : Prop :=
  ∃ extra, s2 = s1.draw extra ∧ ∀ op ∈ extra, op.isFaceOp = true

/-- The text an event writes to standard output. -/
def Event.coutText : Event → Option String
  | Event.cout text => some text
  | _ => none

/-- The file an event writes an image to. -/
def Event.writtenFile : Event → Option String
  | Event.imwrite filename _ => some filename
  | _ => none

/-- Whether an event belongs to a stage after the load of the still image:
configuring, inferring, reporting, persisting or displaying. -/
def Event.isLaterStage : Event → Bool
  | Event.setInputSize _ => true
  | Event.detect _ => true
  | Event.cout _ => true
  | Event.imwrite _ _ => true
  | Event.namedWindow _ => true
  | Event.imshow _ _ => true
  | Event.waitKey _ => true
  | _ => false

/-- Whether an event processes a frame: inference or display. -/
def Event.isFrameWork : Event → Bool
  | Event.detect _ => true
  | Event.imshow _ _ => true
  | _ => false

/-! ## Sample inputs -/

/-- The single-precision value nearest to 0.87. -/
def conf087 : FloatValue := ⟨14596178, 24⟩

/-- A detection row: box (10, 20, 50, 60), five landmarks, confidence 0.87. -/
def sampleRow : List FloatValue :=
  [⟨10, 0⟩, ⟨20, 0⟩, ⟨50, 0⟩, ⟨60, 0⟩, ⟨25, 0⟩, ⟨40, 0⟩, ⟨45, 0⟩, ⟨40, 0⟩, ⟨35, 0⟩, ⟨50, 0⟩,
   ⟨28, 0⟩, ⟨65, 0⟩, ⟨42, 0⟩, ⟨65, 0⟩, conf087]

/-- A table with the single row `sampleRow`. -/
def sampleFaces : Mat := ⟨[sampleRow]⟩

/-- A detection row at the edge of `int`: `x1 = w = 2147483520`,
`y1 = -2147483648`, `h` the single nearest to `10 ^ 20`, and a first landmark
at `x = 3000000000`. -/
def extremeRow : List FloatValue :=
  [⟨2147483520, 0⟩, ⟨-2147483648, 0⟩, ⟨2147483520, 0⟩, ⟨100000002004087734272, 0⟩,
   ⟨3000000000, 0⟩, ⟨40, 0⟩, ⟨45, 0⟩, ⟨40, 0⟩, ⟨35, 0⟩, ⟨50, 0⟩,
   ⟨28, 0⟩, ⟨65, 0⟩, ⟨42, 0⟩, ⟨65, 0⟩, conf087]

/-- A 4 x 4 image with nothing drawn on it. -/
def sampleImage : Image := ⟨4, 4, List.replicate 16 0, []⟩

/-- An image that failed to load. -/
def emptyImage : Image := ⟨0, 0, [], []⟩

/-- A command line selecting the still image `face.jpg`, with `save` off. -/
def stillOptions : Options :=
  ⟨false, "face.jpg", "yunet.onnx", "opencv", "cpu", false, true, ⟨9, 0⟩, ⟨3, 0⟩, 5000⟩

/-- A command line with an empty input: the camera branch. -/
def cameraOptions : Options :=
  ⟨false, "", "yunet.onnx", "opencv", "cpu", false, true, ⟨9, 0⟩, ⟨3, 0⟩, 5000⟩

/-- A world in which the image loads, the detector finds the sample face and
the camera cannot be opened; no key is ever pressed. -/
def sampleEnv : Env :=
  ⟨fun _ => sampleImage, fun _ _ => sampleFaces, none, fun _ => -1, fun _ => ⟨30, 0⟩⟩

/-- A world in which the image does not load. -/
def noImageEnv : Env :=
  ⟨fun _ => emptyImage, fun _ _ => sampleFaces, none, fun _ => -1, fun _ => ⟨30, 0⟩⟩

/-- A camera of 640 x 480 whose first four reads grab a frame and whose later
reads grab none. -/
def fourFrameCamera : Capture :=
  ⟨⟨640, 0⟩, ⟨480, 0⟩, fun k => if k < 4 then some sampleImage else none⟩

/-- A world with the four-frame camera, a detector that finds the sample face,
and no key ever pressed. -/
def fourFrameEnv : Env :=
  ⟨fun _ => sampleImage, fun _ _ => sampleFaces, some fourFrameCamera, fun _ => -1,
    fun _ => ⟨30, 0⟩⟩

/-! ## Lemmas on the loops -/

theorem at_float_run (faces : Mat) (i c : Nat) (log : List Access)
    (hi : i < faces.rows) (hc : c < (faces.data.getD i []).length) :
    faces.at_float i c log = some (faces.cell i c, log ++ [⟨i, c⟩]) := by
  unfold Mat.rows at hi
  have h1 : faces.data[i]? = some (faces.data.getD i []) := by
    rw [List.getD_eq_getElem?_getD, List.getElem?_eq_getElem hi]; rfl
  have h2 : (faces.data.getD i [])[c]? = some (faces.cell i c) := by
    unfold Mat.cell
    rw [List.getD_eq_getElem?_getD (faces.data.getD i []), List.getElem?_eq_getElem hc]; rfl
  simp only [Mat.at_float, h1, h2]

theorem forLoop_run {σ : Type} (body : Nat → σ → Reads σ) (step : Nat → σ → σ)
    (rds : Nat → List Access) :
    ∀ (count start : Nat),
      (∀ k, k < count → ∀ s log,
        body (start + k) s log = some (step (start + k) s, log ++ rds (start + k))) →
      ∀ s log, forLoop body count start s log =
        some ((List.range' start count).foldl (fun s i => step i s) s,
              log ++ (List.range' start count).flatMap rds) := by
  intro count
  induction count with
  | zero => intro start _ s log; simp [forLoop, pure, StateT.pure]
  | succ n ih =>
    intro start hbody s log
    have h0 := hbody 0 (Nat.succ_pos n) s log
    simp only [Nat.add_zero] at h0
    have hrest : ∀ k, k < n → ∀ s log,
        body (start + 1 + k) s log = some (step (start + 1 + k) s, log ++ rds (start + 1 + k)) := by
      intro k hk s log
      have := hbody (k + 1) (Nat.succ_lt_succ hk) s log
      rwa [show start + (k + 1) = start + 1 + k by omega] at this
    have := ih (start + 1) hrest (step start s) (log ++ rds start)
    simp only [forLoop, bind, StateT.bind, h0, Option.bind, this, List.range'_succ,
      List.foldl_cons, List.flatMap_cons, List.append_assoc]

theorem row_length (faces : Mat) (h15 : faces.Has15Cols) (i : Nat) (hi : i < faces.rows) :
    (faces.data.getD i []).length = 15 := by
  unfold Mat.rows at hi
  apply h15
  rw [List.getD_eq_getElem?_getD, List.getElem?_eq_getElem hi]
  exact List.getElem_mem hi

theorem at_float_run15 (faces : Mat) (h15 : faces.Has15Cols) (i c : Nat) (log : List Access)
    (hi : i < faces.rows) (hc : c < 15) :
    faces.at_float i c log = some (faces.cell i c, log ++ [⟨i, c⟩]) :=
  at_float_run faces i c log hi (by rw [row_length faces h15 i hi]; exact hc)

theorem landmarkBody_run (faces : Mat) (h15 : faces.Has15Cols) (i j : Nat)
    (hi : i < faces.rows) (hj : j < 5) (img : Image) (log : List Access) :
    landmarkBody faces i j img log =
      some (img.draw [landmarkOp faces i j], log ++ [⟨i, 2 * j + 4⟩, ⟨i, 2 * j + 5⟩]) := by
  have hx := at_float_run15 faces h15 i (2 * j + 4) log hi (by omega)
  have hy := at_float_run15 faces h15 i (2 * j + 5) (log ++ [⟨i, 2 * j + 4⟩]) hi (by omega)
  have hcol : landmark_color[j]? = some (landmark_color.getD j ⟨0, 0, 0, 0⟩) := by
    interval_cases j <;> rfl
  simp only [landmarkBody, bind, StateT.bind, hx, Option.bind, hy, hcol, pure, StateT.pure,
    circle, landmarkOp, List.append_assoc, List.singleton_append]

theorem draw_draw (img : Image) (a b : List DrawOp) : (img.draw a).draw b = img.draw (a ++ b) := by
  simp [Image.draw, List.append_assoc]

theorem draw_nil (img : Image) : img.draw [] = img := by
  simp [Image.draw]

theorem foldl_draw (ops : Nat → List DrawOp) (l : List Nat) (img : Image) :
    l.foldl (fun s i => s.draw (ops i)) img = img.draw (l.flatMap ops) := by
  induction l generalizing img with
  | nil => simp [draw_nil]
  | cons a l ih => simp [ih, draw_draw]

theorem faceBody_run (faces : Mat) (h15 : faces.Has15Cols) (i : Nat)
    (hi : i < faces.rows) (img : Image) (log : List Access) :
    faceBody faces i img log =
      some (img.draw (faceOps faces i), log ++ visualizeCols.map (fun c => ⟨i, c⟩)) := by
  have h0 := at_float_run15 faces h15 i 0 log hi (by omega)
  have h1 := at_float_run15 faces h15 i 1 (log ++ [⟨i, 0⟩]) hi (by omega)
  have h2 := at_float_run15 faces h15 i 2 (log ++ [⟨i, 0⟩] ++ [⟨i, 1⟩]) hi (by omega)
  have h3 := at_float_run15 faces h15 i 3 (log ++ [⟨i, 0⟩] ++ [⟨i, 1⟩] ++ [⟨i, 2⟩]) hi (by omega)
  have h14 := at_float_run15 faces h15 i 14
    (log ++ [⟨i, 0⟩] ++ [⟨i, 1⟩] ++ [⟨i, 2⟩] ++ [⟨i, 3⟩]) hi (by omega)
  have hloop := forLoop_run (landmarkBody faces i)
    (fun j s => s.draw [landmarkOp faces i j]) (fun j => [⟨i, 2 * j + 4⟩, ⟨i, 2 * j + 5⟩]) 5 0
    (by
      intro k hk s log
      simpa using landmarkBody_run faces h15 i k hi hk s log)
  simp only [faceBody, bind, StateT.bind, h0, h1, h2, h3, h14, Option.bind]
  rw [show landmark_color.length = 5 from rfl, hloop, foldl_draw]
  simp [rectangle, putText, draw_draw, faceOps, boxOp, confOp, box_color, Scalar.mk3,
    fontScaleHalf, visualizeCols, List.range', List.flatMap]

/-- The run of `visualize` on a table whose rows have 15 columns. -/
theorem visualize_run (image : Image) (faces : Mat) (fps : FloatValue) (log : List Access)
    (h15 : faces.Has15Cols) :
    visualize image faces fps log =
      some (image.draw (fpsOps fps ++ (List.range faces.rows).flatMap (faceOps faces)),
            log ++ (List.range faces.rows).flatMap
              (fun i => visualizeCols.map (fun c => (⟨i, c⟩ : Access)))) := by
  have hloop := forLoop_run (faceBody faces) (fun i s => s.draw (faceOps faces i))
    (fun i => visualizeCols.map (fun c => (⟨i, c⟩ : Access))) faces.rows 0
    (by
      intro k hk s log
      simpa using faceBody_run faces h15 k hk s log)
  simp only [visualize, hloop, foldl_draw, List.range_eq_range']
  by_cases hf : 0 ≤ fps.num
  · simp [FloatValue.geZero, fpsOps, hf, putText, draw_draw, Image.clone, box_color, Scalar.mk3,
      fontScaleHalf]
  · simp [FloatValue.geZero, fpsOps, hf, Image.clone]

/-! ## Lemmas on the report and the pipelines -/

theorem reportBody_run (faces : Mat) (h15 : faces.Has15Cols) (i : Nat)
    (hi : i < faces.rows) (events : List Event) (log : List Access) :
    reportBody faces i events log =
      some (events ++ [Event.cout (reportLine faces i ++ "\n")],
            log ++ reportCols.map (fun c => ⟨i, c⟩)) := by
  have h0 := at_float_run15 faces h15 i 0 log hi (by omega)
  have h1 := at_float_run15 faces h15 i 1 (log ++ [⟨i, 0⟩]) hi (by omega)
  have h2 := at_float_run15 faces h15 i 2 (log ++ [⟨i, 0⟩] ++ [⟨i, 1⟩]) hi (by omega)
  have h3 := at_float_run15 faces h15 i 3 (log ++ [⟨i, 0⟩] ++ [⟨i, 1⟩] ++ [⟨i, 2⟩]) hi (by omega)
  have h14 := at_float_run15 faces h15 i 14
    (log ++ [⟨i, 0⟩] ++ [⟨i, 1⟩] ++ [⟨i, 2⟩] ++ [⟨i, 3⟩]) hi (by omega)
  simp only [reportBody, bind, StateT.bind, h0, h1, h2, h3, h14, Option.bind, pure, StateT.pure]
  simp [reportLine, reportCols, String.append_assoc]

theorem foldl_append_events (f : Nat → List Event) (l : List Nat) (events : List Event) :
    l.foldl (fun s i => s ++ f i) events = events ++ l.flatMap f := by
  induction l generalizing events with
  | nil => simp
  | cons a l ih => simp [ih]

theorem flatMap_single {α β : Type} (f : α → β) (l : List α) :
    l.flatMap (fun i => [f i]) = l.map f := by
  induction l with
  | nil => rfl
  | cons a l ih => simp [List.flatMap_cons, ih]

/-- The run of the report on a table whose rows have 15 columns. -/
theorem report_run (faces : Mat) (h15 : faces.Has15Cols) (events : List Event)
    (log : List Access) :
    report faces events log =
      some (events ++ Event.cout (formatInt faces.rows ++ " faces detected:\n") ::
              (List.range faces.rows).map (fun i => Event.cout (reportLine faces i ++ "\n")),
            log ++ (List.range faces.rows).flatMap
              (fun i => reportCols.map (fun c => (⟨i, c⟩ : Access)))) := by
  have hloop := forLoop_run (reportBody faces)
    (fun i s => s ++ [Event.cout (reportLine faces i ++ "\n")])
    (fun i => reportCols.map (fun c => (⟨i, c⟩ : Access))) faces.rows 0
    (by
      intro k hk s log
      simpa using reportBody_run faces h15 k hk s log)
  simp only [report, hloop, foldl_append_events, List.range_eq_range', flatMap_single,
    List.append_assoc, List.singleton_append]

theorem main_still (opts : Options) (env : Env) (fuel : Nat) (backend_id : Backend)
    (target_id : Target) (hhelp : opts.help = false)
    (hb : List.lookup opts.backend str2backend = some backend_id)
    (ht : List.lookup opts.target str2target = some target_id)
    (hin : opts.input.isEmpty = false) :
    main opts env fuel =
      stillImage opts env (initialModel opts backend_id target_id)
        [Event.create (initialModel opts backend_id target_id)] := by
  simp [main, hhelp, hb, ht, hin, initialModel]

theorem main_streaming (opts : Options) (env : Env) (fuel : Nat) (backend_id : Backend)
    (target_id : Target) (hhelp : opts.help = false)
    (hb : List.lookup opts.backend str2backend = some backend_id)
    (ht : List.lookup opts.target str2target = some target_id)
    (hin : opts.input.isEmpty = true) :
    main opts env fuel =
      streaming env (initialModel opts backend_id target_id)
        [Event.create (initialModel opts backend_id target_id)] fuel := by
  simp [main, hhelp, hb, ht, hin, initialModel]

/-- The still-image branch on an image that loads and a table whose rows have 15 columns. -/
theorem stillImage_run (opts : Options) (env : Env) (model : YuNet) (events : List Event)
    (hload : (env.imread opts.input).empty = false)
    (h15 : (env.detect (model.setInputSize (env.imread opts.input).size)
      (env.imread opts.input)).Has15Cols) :
    stillImage opts env model events =
      ⟨events ++ [Event.imread opts.input, Event.setInputSize (env.imread opts.input).size,
          Event.detect (env.imread opts.input),
          Event.cout (formatInt (env.detect (model.setInputSize (env.imread opts.input).size)
            (env.imread opts.input)).rows ++ " faces detected:\n")]
        ++ (List.range (env.detect (model.setInputSize (env.imread opts.input).size)
            (env.imread opts.input)).rows).map
          (fun i => Event.cout (reportLine (env.detect (model.setInputSize
            (env.imread opts.input).size) (env.imread opts.input)) i ++ "\n"))
        ++ [Event.imwrite "Output_IMgggg.jpeg" (rendered (env.imread opts.input)
            (env.detect (model.setInputSize (env.imread opts.input).size)
              (env.imread opts.input)) fps_default)]
        ++ (if opts.save then
              [Event.imwrite "Output_IMg.jpeg" (rendered (env.imread opts.input)
                (env.detect (model.setInputSize (env.imread opts.input).size)
                  (env.imread opts.input)) fps_default),
               Event.cout "Results saved to Output_IMg.jpeg\n"]
            else [])
        ++ (if opts.vis then
              [Event.namedWindow "Face Detection Result",
               Event.imshow "Face Detection Result" (rendered (env.imread opts.input)
                (env.detect (model.setInputSize (env.imread opts.input).size)
                  (env.imread opts.input)) fps_default),
               Event.waitKey 0]
            else []),
       Outcome.returned 0⟩ := by
  simp only [stillImage, hload, StateT.run, YuNet.infer, report_run _ h15, visualize_run _ _ _ _ h15,
    rendered]
  cases opts.save <;> cases opts.vis <;> simp

/-- The streaming loop on a source whose reads `k0 .. k0 + n - 1` grab a frame
(for which the detector writes a table of 15 columns) and whose read `k0 + n`
grabs none, with no key pressed. -/
theorem streamLoop_run (env : Env) (model : YuNet) (cap : Capture) (frame : Nat → Image)
    (hcap : env.capture = some cap) :
    ∀ (n k0 fuel : Nat) (events : List Event), n + 1 ≤ fuel →
      (∀ k, k ≤ n → env.waitKey (k0 + k) < 0) →
      (∀ k, k < n → cap.read (k0 + k) = some (frame (k0 + k))) →
      cap.read (k0 + n) = none →
      (∀ k, k < n → (env.detect model (frame (k0 + k))).Has15Cols) →
      streamLoop env model fuel k0 events =
        ⟨events ++ (List.range' k0 n).flatMap (fun k => iterationEvents env model (frame k) k)
          ++ [Event.waitKey 1, Event.capRead, Event.cout "No frames grabbed! Exiting ...\n"],
         Outcome.returned 0⟩ := by
  intro n
  induction n with
  | zero =>
    intro k0 fuel events hfuel hkey _ hend _
    obtain ⟨f, rfl⟩ : ∃ f, fuel = f + 1 := ⟨fuel - 1, by omega⟩
    have hk := hkey 0 (Nat.le_refl 0)
    simp only [Nat.add_zero] at hk hend
    simp [streamLoop, hk, capRead, hcap, hend]
  | succ n ih =>
    intro k0 fuel events hfuel hkey hread hend h15
    obtain ⟨f, rfl⟩ : ∃ f, fuel = f + 1 := ⟨fuel - 1, by omega⟩
    have hk := hkey 0 (Nat.zero_le _)
    have hr := hread 0 (Nat.succ_pos n)
    have hc := h15 0 (Nat.succ_pos n)
    simp only [Nat.add_zero] at hk hr hc
    have hrest := ih (k0 + 1) f
      (events ++ iterationEvents env model (frame k0) k0) (by omega)
      (fun k hk => by
        have := hkey (k + 1) (by omega)
        rwa [show k0 + (k + 1) = k0 + 1 + k by omega] at this)
      (fun k hk => by
        have := hread (k + 1) (by omega)
        rwa [show k0 + (k + 1) = k0 + 1 + k by omega] at this)
      (by rwa [show k0 + (n + 1) = k0 + 1 + n by omega] at hend)
      (fun k hk => by
        have := h15 (k + 1) (by omega)
        rwa [show k0 + (k + 1) = k0 + 1 + k by omega] at this)
    simp only [streamLoop, hk, capRead, hcap, hr, YuNet.infer, StateT.run,
      visualize_run _ _ _ _ hc, if_true]
    simp only [iterationEvents, rendered, List.append_assoc, List.cons_append,
      List.nil_append] at hrest
    simp only [List.append_assoc, List.cons_append, List.nil_append, hrest, List.range'_succ,
      List.flatMap_cons, iterationEvents, rendered]

/-! ## Further lemmas -/

theorem geZero_iff (x : FloatValue) : x.geZero = true ↔ 0 ≤ x.toRat := by
  have hpos : (0 : ℚ) < (2 : ℚ) ^ x.scale := by positivity
  simp only [FloatValue.geZero, FloatValue.toRat, decide_eq_true_eq]
  rw [le_div_iff₀ hpos, zero_mul]
  exact Int.cast_nonneg.symm

/-- Within the range of `int` the conversion is the truncation toward zero. -/
theorem static_cast_int_of_fits (x : FloatValue) (h : fitsInt x.trunc) :
    static_cast_int x = x.trunc := by
  unfold static_cast_int
  rw [if_pos h]

/-- A value of `int` is left as it is by the wrap. -/
theorem wrapInt_of_fits (n : Int) (h : fitsInt n) : wrapInt n = n := by
  have h1 := h.1
  have h2 := h.2
  simp only [INT_MIN, INT_MAX] at h1 h2
  simp only [wrapInt, INT_MIN]
  omega

theorem fitsInt_tdiv_two (w : Int) (h : fitsInt w) : fitsInt (Int.tdiv w 2) := by
  have h1 := h.1
  have h2 := h.2
  simp only [INT_MIN, INT_MAX] at h1 h2
  simp only [fitsInt, INT_MIN, INT_MAX]
  by_cases hw : 0 ≤ w
  · rw [Int.tdiv_eq_ediv hw (by decide)]
    omega
  · have h3 : Int.tdiv (-w) 2 = (-w) / 2 := Int.tdiv_eq_ediv (by omega) (by decide)
    rw [Int.neg_tdiv] at h3
    omega

/-- The drawing calls of a row whose box and anchor are within `int`. -/
theorem faceOps_of_fits (faces : Mat) (i : Nat) (hbox : faces.BoxInRange i)
    (hanchor : faces.AnchorInRange i) :
    faceOps faces i =
      [DrawOp.rectangle
         ⟨(faces.cell i 0).trunc, (faces.cell i 1).trunc,
          (faces.cell i 2).trunc, (faces.cell i 3).trunc⟩ box_color,
       DrawOp.putText (formatFixed 4 (faces.cell i 14))
         ⟨(faces.cell i 0).trunc + Int.tdiv (faces.cell i 2).trunc 2,
          (faces.cell i 1).trunc - 10⟩
         HersheyFont.FONT_HERSHEY_DUPLEX fontScaleHalf box_color]
      ++ (List.range 5).map (landmarkOp faces i) := by
  obtain ⟨h0, h1, h2, h3⟩ := hbox
  obtain ⟨ha, hb⟩ := hanchor
  simp only [faceOps, boxOp, confOp, int_add, int_sub, int_div,
    static_cast_int_of_fits _ h0, static_cast_int_of_fits _ h1, static_cast_int_of_fits _ h2,
    static_cast_int_of_fits _ h3, wrapInt_of_fits _ (fitsInt_tdiv_two _ h2),
    wrapInt_of_fits _ ha, wrapInt_of_fits _ hb]
  rfl

/-- The marker of a landmark whose columns are within `int`. -/
theorem landmarkOp_of_fits (faces : Mat) (i j : Nat)
    (h : fitsInt (faces.cell i (2 * j + 4)).trunc ∧ fitsInt (faces.cell i (2 * j + 5)).trunc) :
    landmarkOp faces i j =
      DrawOp.circle ⟨(faces.cell i (2 * j + 4)).trunc, (faces.cell i (2 * j + 5)).trunc⟩
        2 (landmark_color.getD j ⟨0, 0, 0, 0⟩) (-1) := by
  simp only [landmarkOp, static_cast_int_of_fits _ h.1, static_cast_int_of_fits _ h.2]

/-- The report line of a row whose box is within `int`. -/
theorem reportLine_of_fits (faces : Mat) (i : Nat) (hbox : faces.BoxInRange i) :
    reportLine faces i =
      formatInt (i : Int) ++ ": x1=" ++ formatInt (faces.cell i 0).trunc
        ++ ", y1=" ++ formatInt (faces.cell i 1).trunc
        ++ ", w=" ++ formatInt (faces.cell i 2).trunc
        ++ ", h=" ++ formatInt (faces.cell i 3).trunc
        ++ ", conf=" ++ formatFixed 4 (faces.cell i 14) := by
  obtain ⟨h0, h1, h2, h3⟩ := hbox
  simp only [reportLine, static_cast_int_of_fits _ h0, static_cast_int_of_fits _ h1,
    static_cast_int_of_fits _ h2, static_cast_int_of_fits _ h3]

theorem sampleFaces_in_range (i : Nat) (hi : i < sampleFaces.rows) :
    sampleFaces.BoxInRange i ∧ sampleFaces.AnchorInRange i ∧ sampleFaces.LandmarksInRange i := by
  have h1 : sampleFaces.rows = 1 := rfl
  have h0 : i = 0 := by omega
  subst h0
  decide

/-- At the edge of `int` the program leaves the arithmetic of the integers: on
`extremeRow` the height `10 ^ 20` and the landmark `3000000000` convert to
`INT_MIN`, and the anchor `x1 + w / 2 = 3221225280`, `y1 - 10 = -2147483658`
wraps to `(-1073742016, 2147483638)`. -/
theorem extremeRow_wraps :
    ((visualize sampleImage ⟨[extremeRow]⟩ fps_default).run []).map
        (fun r => r.1.drawn.take 3) =
      some [DrawOp.rectangle ⟨2147483520, -2147483648, 2147483520, -2147483648⟩
              ⟨0, 255, 0, 0⟩,
            DrawOp.putText "0.8700" ⟨-1073742016, 2147483638⟩
              HersheyFont.FONT_HERSHEY_DUPLEX ⟨1, 1⟩ ⟨0, 255, 0, 0⟩,
            DrawOp.circle ⟨-2147483648, 40⟩ 2 ⟨255, 0, 0, 0⟩ (-1)] ∧
    reportLine ⟨[extremeRow]⟩ 0 =
      "0: x1=2147483520, y1=-2147483648, w=2147483520, h=-2147483648, conf=0.8700" := by
  decide

theorem length_flatMap_faceOps (faces : Mat) (l : List Nat) :
    (l.flatMap (faceOps faces)).length = 7 * l.length := by
  induction l with
  | nil => rfl
  | cons a l ih =>
    rw [List.flatMap_cons, List.length_append, ih, List.length_cons]
    simp only [faceOps, List.length_cons, List.length_nil]
    omega

theorem filter_flatMap {α β : Type} (p : β → Bool) (f : α → List β) (l : List α) :
    (l.flatMap f).filter p = l.flatMap (fun i => (f i).filter p) := by
  induction l with
  | nil => rfl
  | cons a l ih => simp [List.flatMap_cons, ih]

theorem filter_fpsOps (fps : FloatValue) : (fpsOps fps).filter DrawOp.isCircle = [] := by
  unfold fpsOps
  split <;> rfl

theorem sampleFaces_has15 : sampleFaces.Has15Cols := by
  intro row h
  simp only [sampleFaces, List.mem_singleton] at h
  subst h
  rfl

theorem empty_has15 : Mat.Has15Cols ⟨[]⟩ := by
  intro row h
  simp at h

theorem grows_refl (s : Image) : s.Grows s :=
  ⟨[], (draw_nil s).symm, by simp⟩

theorem grows_trans (a b c : Image) (h1 : a.Grows b) (h2 : b.Grows c) : a.Grows c := by
  obtain ⟨e1, rfl, he1⟩ := h1
  obtain ⟨e2, rfl, he2⟩ := h2
  refine ⟨e1 ++ e2, draw_draw a e1 e2, ?_⟩
  intro op hop
  rcases List.mem_append.mp hop with h | h
  · exact he1 op h
  · exact he2 op h

theorem grows_draw (s : Image) (ops : List DrawOp) (h : ∀ op ∈ ops, op.isFaceOp = true) :
    s.Grows (s.draw ops) :=
  ⟨ops, rfl, h⟩

/-- A loop that returns has related its initial to its final state by any
reflexive and transitive relation its body respects. -/
theorem forLoop_inv {σ : Type} (body : Nat → σ → Reads σ) (R : σ → σ → Prop)
    (hrefl : ∀ s, R s s) (htrans : ∀ a b c, R a b → R b c → R a c)
    (hbody : ∀ i s log s2 log2, body i s log = some (s2, log2) → R s s2) :
    ∀ (count start : Nat) (s : σ) (log : List Access) (s2 : σ) (log2 : List Access),
      forLoop body count start s log = some (s2, log2) → R s s2 := by
  intro count
  induction count with
  | zero =>
    intro start s log s2 log2 h
    simp only [forLoop, pure, StateT.pure, Option.some.injEq, Prod.mk.injEq] at h
    rw [← h.1]
    exact hrefl s
  | succ n ih =>
    intro start s log s2 log2 h
    simp only [forLoop, bind, StateT.bind] at h
    cases hb : body start s log with
    | none => simp [hb, Option.bind] at h
    | some r =>
      obtain ⟨s1, log1⟩ := r
      simp only [hb, Option.bind] at h
      exact htrans _ _ _ (hbody start s log s1 log1 hb) (ih (start + 1) s1 log1 s2 log2 h)

theorem landmarkBody_grows (faces : Mat) (i j : Nat) (s : Image) (log : List Access)
    (s2 : Image) (log2 : List Access) (h : landmarkBody faces i j s log = some (s2, log2)) :
    s.Grows s2 := by
  simp only [landmarkBody, bind, StateT.bind] at h
  cases hx : faces.at_float i (2 * j + 4) log with
  | none => simp [hx, Option.bind] at h
  | some rx =>
    simp only [hx, Option.bind] at h
    cases hy : faces.at_float i (2 * j + 5) rx.2 with
    | none => simp [hy] at h
    | some ry =>
      simp only [hy] at h
      cases hc : landmark_color[j]? with
      | none =>
        simp only [hc] at h
        exact absurd h (by simp [failure, Alternative.failure, StateT.failure])
      | some color =>
        simp only [hc, pure, StateT.pure, Option.some.injEq, Prod.mk.injEq] at h
        rw [← h.1]
        exact grows_draw s _ (by simp [DrawOp.isFaceOp])

theorem faceBody_grows (faces : Mat) (i : Nat) (s : Image) (log : List Access)
    (s2 : Image) (log2 : List Access) (h : faceBody faces i s log = some (s2, log2)) :
    s.Grows s2 := by
  simp only [faceBody, bind, StateT.bind] at h
  cases h0 : faces.at_float i 0 log with
  | none => simp [h0, Option.bind] at h
  | some r0 =>
    simp only [h0, Option.bind] at h
    cases h1 : faces.at_float i 1 r0.2 with
    | none => simp [h1] at h
    | some r1 =>
      simp only [h1] at h
      cases h2 : faces.at_float i 2 r1.2 with
      | none => simp [h2] at h
      | some r2 =>
        simp only [h2] at h
        cases h3 : faces.at_float i 3 r2.2 with
        | none => simp [h3] at h
        | some r3 =>
          simp only [h3] at h
          cases h14 : faces.at_float i 14 r3.2 with
          | none => simp [h14] at h
          | some r14 =>
            simp only [h14] at h
            have hloop := forLoop_inv (landmarkBody faces i) Image.Grows grows_refl grows_trans
              (landmarkBody_grows faces i) _ _ _ _ _ _ h
            refine grows_trans _ _ _ ?_ hloop
            simp only [rectangle, putText, draw_draw]
            exact grows_draw s _ (by simp [DrawOp.isFaceOp])

/-- Whenever `visualize` returns, on any table, the returned image is the input
image with the optional frame-rate label and then face-loop drawing calls. -/
theorem visualize_grows (image : Image) (faces : Mat) (fps : FloatValue) (log : List Access)
    (out : Image) (log2 : List Access) (h : visualize image faces fps log = some (out, log2)) :
    ∃ rest, out = image.draw (fpsOps fps ++ rest) ∧ ∀ op ∈ rest, op.isFaceOp = true := by
  simp only [visualize] at h
  have hloop := forLoop_inv (faceBody faces) Image.Grows grows_refl grows_trans
    (faceBody_grows faces) _ _ _ _ _ _ h
  obtain ⟨rest, hout, hrest⟩ := hloop
  refine ⟨rest, ?_, hrest⟩
  rw [hout]
  by_cases hf : 0 ≤ fps.num
  · simp [FloatValue.geZero, fpsOps, hf, putText, draw_draw, Image.clone, box_color, Scalar.mk3,
      fontScaleHalf]
  · simp [FloatValue.geZero, fpsOps, hf, Image.clone, draw_draw]

theorem fpsLabel_mem_iff (fps : FloatValue) (rest : List DrawOp)
    (hrest : ∀ op ∈ rest, op.isFaceOp = true) :
    fpsLabel fps ∈ fpsOps fps ++ rest ↔ fps.geZero = true := by
  have hnot : fpsLabel fps ∉ rest := by
    intro hmem
    have := hrest _ hmem
    simp [fpsLabel, DrawOp.isFaceOp] at this
  by_cases hf : 0 ≤ fps.num
  · simp [FloatValue.geZero, fpsOps, hf, fpsLabel]
  · simp [FloatValue.geZero, fpsOps, hf, hnot]

/-! ## The overlay renderer -/

/-- C1: on a table whose rows have 15 columns and whose box columns and text
anchors are within the range of `int`, `visualize` returns the input image
with, after the optional frame-rate label, the drawing calls of the rows in
table order; row `i` contributes, in this order, one rectangle in the box
colour (0, 255, 0) with geometry columns 0..3 truncated, one confidence text
(column 14 to four decimals) anchored at `(x1 + w / 2, y1 - 10)` with truncating
division, and the five landmark markers: `7 * n` calls for `n` rows. -/
theorem visualize_draws_each_row (image : Image) (faces : Mat) (fps : FloatValue)
    (h15 : faces.Has15Cols)
    (hrange : ∀ i, i < faces.rows → faces.BoxInRange i ∧ faces.AnchorInRange i) :
    (∃ log, (visualize image faces fps).run [] =
      some (image.draw (fpsOps fps ++ (List.range faces.rows).flatMap (faceOps faces)), log)) ∧
    (∀ i, i < faces.rows → faceOps faces i =
      [DrawOp.rectangle
         ⟨(faces.cell i 0).trunc, (faces.cell i 1).trunc,
          (faces.cell i 2).trunc, (faces.cell i 3).trunc⟩ box_color,
       DrawOp.putText (formatFixed 4 (faces.cell i 14))
         ⟨(faces.cell i 0).trunc + Int.tdiv (faces.cell i 2).trunc 2,
          (faces.cell i 1).trunc - 10⟩
         HersheyFont.FONT_HERSHEY_DUPLEX fontScaleHalf box_color]
      ++ (List.range 5).map (landmarkOp faces i)) ∧
    box_color = ⟨0, 255, 0, 0⟩ ∧
    ((List.range faces.rows).flatMap (faceOps faces)).length = 7 * faces.rows ∧
    (fpsOps fps).length ≤ 1 := by
  refine ⟨⟨_, visualize_run image faces fps [] h15⟩,
    fun i hi => faceOps_of_fits faces i (hrange i hi).1 (hrange i hi).2, rfl, ?_, ?_⟩
  · rw [length_flatMap_faceOps, List.length_range]
  · unfold fpsOps
    split <;> simp

/-- Witness for C1 on the sample table: one row, seven drawing calls, no
frame-rate label. -/
theorem visualize_draws_each_row_witness :
    sampleFaces.Has15Cols ∧
    (∀ i, i < sampleFaces.rows → sampleFaces.BoxInRange i ∧ sampleFaces.AnchorInRange i) ∧
    ((visualize sampleImage sampleFaces fps_default).run []).map (fun r => r.1.drawn) =
      some [DrawOp.rectangle ⟨10, 20, 50, 60⟩ ⟨0, 255, 0, 0⟩,
            DrawOp.putText "0.8700" ⟨35, 10⟩ HersheyFont.FONT_HERSHEY_DUPLEX ⟨1, 1⟩
              ⟨0, 255, 0, 0⟩,
            DrawOp.circle ⟨25, 40⟩ 2 ⟨255, 0, 0, 0⟩ (-1),
            DrawOp.circle ⟨45, 40⟩ 2 ⟨0, 0, 255, 0⟩ (-1),
            DrawOp.circle ⟨35, 50⟩ 2 ⟨0, 255, 0, 0⟩ (-1),
            DrawOp.circle ⟨28, 65⟩ 2 ⟨255, 0, 255, 0⟩ (-1),
            DrawOp.circle ⟨42, 65⟩ 2 ⟨0, 255, 255, 0⟩ (-1)] := by
  have hrange : ∀ i, i < sampleFaces.rows →
      sampleFaces.BoxInRange i ∧ sampleFaces.AnchorInRange i :=
    fun i hi => ⟨(sampleFaces_in_range i hi).1, (sampleFaces_in_range i hi).2.1⟩
  refine ⟨sampleFaces_has15, hrange, ?_⟩
  obtain ⟨log, hrun⟩ :=
    (visualize_draws_each_row sampleImage sampleFaces fps_default sampleFaces_has15 hrange).1
  rw [hrun]
  show some (sampleImage.draw _).drawn = _
  decide

/-- C2: on a table whose rows have 15 columns and whose landmark columns are
within the range of `int`, the circles `visualize` draws are, row by row,
exactly five markers; marker `j` of row `i` is a filled circle (thickness -1)
of radius 2 centred at columns `2j+4`, `2j+5` of row `i` truncated, in the
colour `landmark_color[j]`, which is a constant of `j` alone; the five colours
are pairwise distinct. -/
theorem visualize_landmark_markers (image : Image) (faces : Mat) (fps : FloatValue)
    (h15 : faces.Has15Cols)
    (hrange : ∀ i, i < faces.rows → faces.LandmarksInRange i) :
    (∃ out log, (visualize image faces fps).run [] = some (out, log) ∧
      out.drawn.filter DrawOp.isCircle =
        image.drawn.filter DrawOp.isCircle ++
          (List.range faces.rows).flatMap (fun i =>
            (List.range 5).map (fun j =>
              DrawOp.circle
                ⟨(faces.cell i (2 * j + 4)).trunc, (faces.cell i (2 * j + 5)).trunc⟩
                2 (landmark_color.getD j ⟨0, 0, 0, 0⟩) (-1)))) ∧
    landmark_color =
      [⟨255, 0, 0, 0⟩, ⟨0, 0, 255, 0⟩, ⟨0, 255, 0, 0⟩, ⟨255, 0, 255, 0⟩, ⟨0, 255, 255, 0⟩] ∧
    landmark_color.Nodup := by
  refine ⟨⟨_, _, visualize_run image faces fps [] h15, ?_⟩, rfl, by decide⟩
  simp only [Image.draw, List.filter_append, filter_fpsOps, List.nil_append, filter_flatMap]
  congr 1
  apply List.flatMap_congr
  intro i hi
  have hi2 : i < faces.rows := List.mem_range.mp hi
  have hrow : (faceOps faces i).filter DrawOp.isCircle =
      (List.range 5).map (landmarkOp faces i) := rfl
  rw [hrow]
  apply List.map_congr_left
  intro j hj
  exact landmarkOp_of_fits faces i j (hrange i hi2 j (List.mem_range.mp hj))

/-- Witness for C2 on the sample table: the five markers of its row. -/
theorem visualize_landmark_markers_witness :
    sampleFaces.Has15Cols ∧
    (∀ i, i < sampleFaces.rows → sampleFaces.LandmarksInRange i) ∧
    ((visualize sampleImage sampleFaces ⟨30, 0⟩).run []).map
        (fun r => r.1.drawn.filter DrawOp.isCircle) =
      some [DrawOp.circle ⟨25, 40⟩ 2 ⟨255, 0, 0, 0⟩ (-1),
            DrawOp.circle ⟨45, 40⟩ 2 ⟨0, 0, 255, 0⟩ (-1),
            DrawOp.circle ⟨35, 50⟩ 2 ⟨0, 255, 0, 0⟩ (-1),
            DrawOp.circle ⟨28, 65⟩ 2 ⟨255, 0, 255, 0⟩ (-1),
            DrawOp.circle ⟨42, 65⟩ 2 ⟨0, 255, 255, 0⟩ (-1)] := by
  have hrange : ∀ i, i < sampleFaces.rows → sampleFaces.LandmarksInRange i :=
    fun i hi => (sampleFaces_in_range i hi).2.2
  refine ⟨sampleFaces_has15, hrange, ?_⟩
  obtain ⟨out, log, hrun, hdrawn⟩ :=
    (visualize_landmark_markers sampleImage sampleFaces ⟨30, 0⟩ sampleFaces_has15 hrange).1
  rw [hrun, Option.map_some', hdrawn]
  decide

/-- C3: on the empty table `visualize` returns without fault and draws no box,
text or marker: the input image itself when `fps >= 0` fails (as for the default
-1), and the input image with the single label `"FPS: " ++ fps` to two decimals
at (0, 15) when `fps >= 0`.  On any table on which it returns, the drawing calls
it adds contain the frame-rate label if and only if `fps >= 0`, and it does
return on every table whose rows have 15 columns. -/
theorem visualize_empty_table (image : Image) (fps : FloatValue) :
    (fps.geZero = false → (visualize image ⟨[]⟩ fps).run [] = some (image, [])) ∧
    (visualize image ⟨[]⟩ fps_default).run [] = some (image, []) ∧
    (fps.geZero = true → (visualize image ⟨[]⟩ fps).run [] =
      some (image.draw [DrawOp.putText ("FPS: " ++ formatFixed 2 fps) ⟨0, 15⟩
        HersheyFont.FONT_HERSHEY_SIMPLEX fontScaleHalf box_color], [])) ∧
    (∀ faces out log, (visualize image faces fps).run [] = some (out, log) →
      ∃ ops, out = image.draw ops ∧ (fpsLabel fps ∈ ops ↔ fps.geZero = true)) ∧
    (∀ faces : Mat, faces.Has15Cols → ((visualize image faces fps).run []).isSome = true) := by
  have hrun := visualize_run image ⟨[]⟩ fps [] empty_has15
  have hdef := visualize_run image ⟨[]⟩ fps_default [] empty_has15
  simp only [Mat.rows, List.length_nil, List.range_zero, List.flatMap_nil, List.append_nil]
    at hrun hdef
  refine ⟨?_, ?_, ?_, ?_, ?_⟩
  · intro hf
    have hneg : ¬ 0 ≤ fps.num := by simpa [FloatValue.geZero] using hf
    simp only [StateT.run, hrun, fpsOps, hneg, if_false, draw_nil]
  · have hneg : ¬ (0 : Int) ≤ fps_default.num := by decide
    simp only [StateT.run, hdef, fpsOps, hneg, if_false, draw_nil]
  · intro hf
    have hpos : 0 ≤ fps.num := by simpa [FloatValue.geZero] using hf
    simp only [StateT.run, hrun, fpsOps, hpos, if_true]
    rfl
  · intro faces out log h
    obtain ⟨rest, hout, hrest⟩ := visualize_grows image faces fps [] out log h
    exact ⟨fpsOps fps ++ rest, hout, fpsLabel_mem_iff fps rest hrest⟩
  · intro faces h15
    simp only [StateT.run, visualize_run image faces fps [] h15, Option.isSome_some]

/-- Witness for C3 at the sample image: with the default `fps` the image comes
back as it is, with 30 frames per second it gets the one label `FPS: 30.00`,
and on the sample table `visualize` returns as well. -/
theorem visualize_empty_table_witness :
    fps_default.geZero = false ∧
    (visualize sampleImage ⟨[]⟩ fps_default).run [] = some (sampleImage, []) ∧
    FloatValue.geZero ⟨30, 0⟩ = true ∧
    (visualize sampleImage ⟨[]⟩ ⟨30, 0⟩).run [] =
      some (sampleImage.draw [DrawOp.putText "FPS: 30.00" ⟨0, 15⟩
        HersheyFont.FONT_HERSHEY_SIMPLEX ⟨1, 1⟩ ⟨0, 255, 0, 0⟩], []) ∧
    ((visualize sampleImage sampleFaces ⟨30, 0⟩).run []).isSome = true :=
  ⟨by decide,
   (visualize_empty_table sampleImage fps_default).1 (by decide),
   by decide,
   (visualize_empty_table sampleImage ⟨30, 0⟩).2.2.1 (by decide),
   (visualize_empty_table sampleImage ⟨30, 0⟩).2.2.2.2 sampleFaces sampleFaces_has15⟩

/-- C10: on a table whose rows have 15 columns neither `visualize` nor the
report ever leaves the matrix: both return, `visualize` reads in every row the
columns 0, 1, 2, 3, 14 and then `2j+4`, `2j+5` for `j = 0..4`, the report reads
0, 1, 2, 3, 14; every read has its row below `faces.rows` and its column at most
14, and the columns `visualize` reads in a row are each of 0..14 exactly once. -/
theorem reads_in_bounds (image : Image) (faces : Mat) (fps : FloatValue)
    (events : List Event) (h15 : faces.Has15Cols) :
    (∃ out log, (visualize image faces fps).run [] = some (out, log) ∧
      log = (List.range faces.rows).flatMap
        (fun i => visualizeCols.map (fun c => (⟨i, c⟩ : Access))) ∧
      ∀ a ∈ log, a.row < faces.rows ∧ a.col ≤ 14) ∧
    (∃ out log, (report faces events).run [] = some (out, log) ∧
      log = (List.range faces.rows).flatMap
        (fun i => reportCols.map (fun c => (⟨i, c⟩ : Access))) ∧
      ∀ a ∈ log, a.row < faces.rows ∧ a.col ≤ 14) ∧
    visualizeCols = [0, 1, 2, 3, 14] ++ (List.range 5).flatMap (fun j => [2 * j + 4, 2 * j + 5]) ∧
    reportCols = [0, 1, 2, 3, 14] ∧
    visualizeCols.Perm (List.range 15) ∧
    visualizeCols.Nodup := by
  refine ⟨⟨_, _, visualize_run image faces fps [] h15, by simp, ?_⟩,
    ⟨_, _, report_run faces h15 events [], by simp, ?_⟩, by decide, rfl, by decide, by decide⟩
  · intro a ha
    simp only [List.nil_append, List.mem_flatMap, List.mem_range, List.mem_map] at ha
    obtain ⟨i, hi, c, hc, rfl⟩ := ha
    refine ⟨hi, ?_⟩
    have : ∀ c ∈ visualizeCols, c ≤ 14 := by decide
    exact this c hc
  · intro a ha
    simp only [List.nil_append, List.mem_flatMap, List.mem_range, List.mem_map] at ha
    obtain ⟨i, hi, c, hc, rfl⟩ := ha
    refine ⟨hi, ?_⟩
    have : ∀ c ∈ reportCols, c ≤ 14 := by decide
    exact this c hc

/-- Witness for C10 on the sample table: the columns `visualize` and the report
read, in program order. -/
theorem reads_in_bounds_witness :
    sampleFaces.Has15Cols ∧
    ((visualize sampleImage sampleFaces fps_default).run []).map (fun r => r.2.map Access.col) =
      some [0, 1, 2, 3, 14, 4, 5, 6, 7, 8, 9, 10, 11, 12, 13] ∧
    ((report sampleFaces []).run []).map (fun r => r.2.map Access.col) =
      some [0, 1, 2, 3, 14] := by
  obtain ⟨⟨out, log, hrun, hlog, -⟩, ⟨out2, log2, hrun2, hlog2, -⟩, -⟩ :=
    reads_in_bounds sampleImage sampleFaces fps_default [] sampleFaces_has15
  refine ⟨sampleFaces_has15, ?_, ?_⟩
  · rw [hrun, hlog]
    rfl
  · rw [hrun2, hlog2]
    rfl

/-! ## The still-image pipeline -/

theorem filterMap_coutText_lines (f : Nat → String) (l : List Nat) :
    (l.map (fun i => Event.cout (f i))).filterMap Event.coutText = l.map f := by
  induction l with
  | nil => rfl
  | cons a l ih => simp [Event.coutText, ih]

theorem filterMap_writtenFile_lines (f : Nat → String) (l : List Nat) :
    (l.map (fun i => Event.cout (f i))).filterMap Event.writtenFile = [] := by
  induction l with
  | nil => rfl
  | cons a l ih => simp [Event.writtenFile, ih]

/-- C4: in the still-image pipeline, for the table `faces` of `n` rows (of 15
columns, box columns within the range of `int`) that `infer` returns, standard
output receives the header, then exactly `n` record lines in table order, line
`i` being `i: x1=X, y1=Y, w=W, h=H, conf=C` with `X, Y, W, H` columns 0..3 of
row `i` truncated and `C` column 14 to four decimals, then the optional save
notice. -/
theorem report_lists_every_row (opts : Options) (env : Env) (fuel : Nat)
    (backend_id : Backend) (target_id : Target) (image : Image) (faces : Mat)
    (hhelp : opts.help = false)
    (hb : List.lookup opts.backend str2backend = some backend_id)
    (ht : List.lookup opts.target str2target = some target_id)
    (hin : opts.input.isEmpty = false)
    (himg : env.imread opts.input = image) (hload : image.empty = false)
    (hdet : ((initialModel opts backend_id target_id).setInputSize image.size).infer env image
      = faces)
    (h15 : faces.Has15Cols)
    (hrange : ∀ i, i < faces.rows → faces.BoxInRange i) :
    (main opts env fuel).events.filterMap Event.coutText =
      (formatInt faces.rows ++ " faces detected:\n") ::
        (List.range faces.rows).map (fun (i : Nat) =>
          formatInt (i : Int) ++ ": x1=" ++ formatInt (faces.cell i 0).trunc
            ++ ", y1=" ++ formatInt (faces.cell i 1).trunc
            ++ ", w=" ++ formatInt (faces.cell i 2).trunc
            ++ ", h=" ++ formatInt (faces.cell i 3).trunc
            ++ ", conf=" ++ formatFixed 4 (faces.cell i 14) ++ "\n")
        ++ (if opts.save then ["Results saved to Output_IMg.jpeg\n"] else []) := by
  subst himg
  simp only [YuNet.infer] at hdet
  have hlines : (List.range faces.rows).map (fun (i : Nat) => reportLine faces i ++ "\n") =
      (List.range faces.rows).map (fun (i : Nat) =>
          formatInt (i : Int) ++ ": x1=" ++ formatInt (faces.cell i 0).trunc
            ++ ", y1=" ++ formatInt (faces.cell i 1).trunc
            ++ ", w=" ++ formatInt (faces.cell i 2).trunc
            ++ ", h=" ++ formatInt (faces.cell i 3).trunc
            ++ ", conf=" ++ formatFixed 4 (faces.cell i 14) ++ "\n") := by
    apply List.map_congr_left
    intro i hi
    rw [reportLine_of_fits faces i (hrange i (List.mem_range.mp hi))]
  rw [main_still opts env fuel backend_id target_id hhelp hb ht hin,
    stillImage_run opts env _ _ hload (by rw [hdet]; exact h15), hdet]
  simp only [List.filterMap_append, filterMap_coutText_lines, hlines]
  cases opts.save <;> cases opts.vis <;> simp [Event.coutText]

/-- Witness for C4 on the sample: one face with box (10, 20, 50, 60) and
confidence 0.87 (the nearest single-precision value, at most `2 ^ -25` away)
gives the line `0: x1=10, y1=20, w=50, h=60, conf=0.8700`. -/
theorem report_lists_every_row_witness :
    sampleFaces.Has15Cols ∧
    (∀ i, i < sampleFaces.rows → sampleFaces.BoxInRange i) ∧
    (Int.natAbs (14596178 * 100 - 87 * 2 ^ 24) * 2 ^ 25 ≤ 100 * 2 ^ 24) ∧
    (main stillOptions sampleEnv 0).events.filterMap Event.coutText =
      ["1 faces detected:\n", "0: x1=10, y1=20, w=50, h=60, conf=0.8700\n"] := by
  have hrange : ∀ i, i < sampleFaces.rows → sampleFaces.BoxInRange i :=
    fun i hi => (sampleFaces_in_range i hi).1
  refine ⟨sampleFaces_has15, hrange, by decide, ?_⟩
  rw [report_lists_every_row stillOptions sampleEnv 0 Backend.DNN_BACKEND_OPENCV
    Target.DNN_TARGET_CPU sampleImage sampleFaces rfl (by decide) (by decide) (by decide) rfl
    (by decide) rfl sampleFaces_has15 hrange]
  decide

/-- C6: in the still-image pipeline, for an image that loads and a table of 15
columns, the files the run writes are `Output_IMgggg.jpeg`, always, followed by
`Output_IMg.jpeg` when `save` is on; the `vis` option plays no part. -/
theorem still_image_written_files (opts : Options) (env : Env) (fuel : Nat)
    (backend_id : Backend) (target_id : Target) (image : Image) (faces : Mat)
    (hhelp : opts.help = false)
    (hb : List.lookup opts.backend str2backend = some backend_id)
    (ht : List.lookup opts.target str2target = some target_id)
    (hin : opts.input.isEmpty = false)
    (himg : env.imread opts.input = image) (hload : image.empty = false)
    (hdet : ((initialModel opts backend_id target_id).setInputSize image.size).infer env image
      = faces)
    (h15 : faces.Has15Cols) :
    (main opts env fuel).events.filterMap Event.writtenFile =
      "Output_IMgggg.jpeg" :: (if opts.save then ["Output_IMg.jpeg"] else []) := by
  subst himg
  simp only [YuNet.infer] at hdet
  rw [main_still opts env fuel backend_id target_id hhelp hb ht hin,
    stillImage_run opts env _ _ hload (by rw [hdet]; exact h15), hdet]
  simp only [List.filterMap_append, filterMap_writtenFile_lines]
  cases opts.save <;> cases opts.vis <;> simp [Event.writtenFile]

/-- Witness for C6 with `save` off: the run still writes the file
`Output_IMgggg.jpeg`. -/
theorem still_image_written_files_witness :
    stillOptions.save = false ∧
    (main stillOptions sampleEnv 0).events.filterMap Event.writtenFile =
      ["Output_IMgggg.jpeg"] := by
  refine ⟨rfl, ?_⟩
  rw [still_image_written_files stillOptions sampleEnv 0 Backend.DNN_BACKEND_OPENCV
    Target.DNN_TARGET_CPU sampleImage sampleFaces rfl (by decide) (by decide) (by decide) rfl
    (by decide) rfl sampleFaces_has15]
  decide

/-- C9: in the still-image pipeline, when the loaded image is empty the run
consists of the construction of the detector, the load and the error message
on standard error, and `main` returns -1: no later stage (configure, infer,
report, persist, display) is run. -/
theorem unloadable_image_aborts (opts : Options) (env : Env) (fuel : Nat)
    (backend_id : Backend) (target_id : Target)
    (hhelp : opts.help = false)
    (hb : List.lookup opts.backend str2backend = some backend_id)
    (ht : List.lookup opts.target str2target = some target_id)
    (hin : opts.input.isEmpty = false)
    (hload : (env.imread opts.input).empty = true) :
    main opts env fuel =
      ⟨[Event.create (initialModel opts backend_id target_id), Event.imread opts.input,
        Event.cerr ("Error: Could not open or find the image at " ++ opts.input ++ "\n")],
       Outcome.returned (-1)⟩ ∧
    (∀ e ∈ (main opts env fuel).events, e.isLaterStage = false) ∧
    (main opts env fuel).outcome ≠ Outcome.returned 0 := by
  have hrun : main opts env fuel =
      ⟨[Event.create (initialModel opts backend_id target_id), Event.imread opts.input,
        Event.cerr ("Error: Could not open or find the image at " ++ opts.input ++ "\n")],
       Outcome.returned (-1)⟩ := by
    rw [main_still opts env fuel backend_id target_id hhelp hb ht hin]
    simp [stillImage, hload]
  refine ⟨hrun, ?_, ?_⟩
  · rw [hrun]
    intro e he
    simp only [List.mem_cons, List.mem_singleton, List.not_mem_nil, or_false] at he
    rcases he with rfl | rfl | rfl <;> rfl
  · rw [hrun]
    intro h
    exact absurd (Outcome.returned.inj h) (by decide)

/-- Witness for C9 in a world where the image does not load. -/
theorem unloadable_image_aborts_witness :
    (noImageEnv.imread stillOptions.input).empty = true ∧
    main stillOptions noImageEnv 0 =
      ⟨[Event.create ⟨"yunet.onnx", ⟨320, 320⟩, ⟨9, 0⟩, ⟨3, 0⟩, 5000,
          Backend.DNN_BACKEND_OPENCV, Target.DNN_TARGET_CPU⟩,
        Event.imread "face.jpg",
        Event.cerr "Error: Could not open or find the image at face.jpg\n"],
       Outcome.returned (-1)⟩ :=
  ⟨by decide,
   (unloadable_image_aborts stillOptions noImageEnv 0 Backend.DNN_BACKEND_OPENCV
    Target.DNN_TARGET_CPU rfl (by decide) (by decide) (by decide) (by decide)).1⟩

/-! ## The streaming pipeline -/

/-- C7 as stated fails: with a camera that cannot be opened and no key pressed,
the run configures the detector with the size (0, 0), requests one frame, and
`main` returns 0. -/
theorem unopened_camera_counterexample :
    sampleEnv.capture = none ∧
    main cameraOptions sampleEnv 1 =
      ⟨[Event.create ⟨"yunet.onnx", ⟨320, 320⟩, ⟨9, 0⟩, ⟨3, 0⟩, 5000,
          Backend.DNN_BACKEND_OPENCV, Target.DNN_TARGET_CPU⟩,
        Event.videoCapture 0,
        Event.capGet CapProp.CAP_PROP_FRAME_WIDTH, Event.capGet CapProp.CAP_PROP_FRAME_HEIGHT,
        Event.setInputSize ⟨0, 0⟩,
        Event.waitKey 1, Event.capRead, Event.cout "No frames grabbed! Exiting ...\n"],
       Outcome.returned 0⟩ :=
  ⟨rfl, by decide⟩

/-- C7, amended: in the streaming pipeline, when the capture source cannot be
opened, the run configures the detector once with the size (0, 0) the unopened
source reports, enters the loop, requests at most one frame (exactly one when no
key is pressed, and that request fails with the end-of-stream message), runs no
inference and no display, and `main` returns 0. -/
theorem unopened_camera_run (opts : Options) (env : Env) (fuel : Nat)
    (backend_id : Backend) (target_id : Target)
    (hhelp : opts.help = false)
    (hb : List.lookup opts.backend str2backend = some backend_id)
    (ht : List.lookup opts.target str2target = some target_id)
    (hin : opts.input.isEmpty = true)
    (hcap : env.capture = none) (hfuel : 1 ≤ fuel) :
    main opts env fuel =
      ⟨[Event.create (initialModel opts backend_id target_id),
        Event.videoCapture 0,
        Event.capGet CapProp.CAP_PROP_FRAME_WIDTH, Event.capGet CapProp.CAP_PROP_FRAME_HEIGHT,
        Event.setInputSize ⟨0, 0⟩, Event.waitKey 1]
        ++ (if env.waitKey 0 < 0 then
              [Event.capRead, Event.cout "No frames grabbed! Exiting ...\n"]
            else []),
       Outcome.returned 0⟩ ∧
    (∀ e ∈ (main opts env fuel).events, e.isFrameWork = false) := by
  obtain ⟨f, rfl⟩ : ∃ f, fuel = f + 1 := ⟨fuel - 1, by omega⟩
  have hrun : main opts env (f + 1) =
      ⟨[Event.create (initialModel opts backend_id target_id),
        Event.videoCapture 0,
        Event.capGet CapProp.CAP_PROP_FRAME_WIDTH, Event.capGet CapProp.CAP_PROP_FRAME_HEIGHT,
        Event.setInputSize ⟨0, 0⟩, Event.waitKey 1]
        ++ (if env.waitKey 0 < 0 then
              [Event.capRead, Event.cout "No frames grabbed! Exiting ...\n"]
            else []),
       Outcome.returned 0⟩ := by
    rw [main_streaming opts env (f + 1) backend_id target_id hhelp hb ht hin]
    have h0 : static_cast_int ⟨0, 0⟩ = 0 := by decide
    by_cases hk : env.waitKey 0 < 0
    · simp [streaming, streamLoop, hcap, capGet, capRead, hk, h0]
    · simp [streaming, streamLoop, hcap, capGet, capRead, hk, h0]
  refine ⟨hrun, ?_⟩
  rw [hrun]
  intro e he
  by_cases hk : env.waitKey 0 < 0
  · simp only [hk, if_true, List.cons_append, List.nil_append, List.mem_cons,
      List.not_mem_nil, or_false] at he
    rcases he with rfl | rfl | rfl | rfl | rfl | rfl | rfl | rfl <;> rfl
  · simp only [hk, if_false, List.append_nil, List.mem_cons, List.not_mem_nil, or_false] at he
    rcases he with rfl | rfl | rfl | rfl | rfl | rfl <;> rfl

/-- Witness for the amended C7 in a world whose camera cannot be opened. -/
theorem unopened_camera_run_witness :
    sampleEnv.capture = none ∧
    (main cameraOptions sampleEnv 1).outcome = Outcome.returned 0 ∧
    (∀ e ∈ (main cameraOptions sampleEnv 1).events, e.isFrameWork = false) :=
  ⟨rfl, by decide,
   (unopened_camera_run cameraOptions sampleEnv 1 Backend.DNN_BACKEND_OPENCV
    Target.DNN_TARGET_CPU rfl (by decide) (by decide) (by decide) rfl (by decide)).2⟩

/-- C8: in the streaming pipeline with no key pressed, if the first `n` reads
grab the frames `frame 0 .. frame (n - 1)` and read `n + 1` grabs none, then
(with enough fuel, `n + 1` iterations) the run is: the set-up, then for each of
the `n` frames in acquisition order the full iteration (read, infer, render with
that iteration's FPS, display), then the failed read with its message and
nothing else; `main` returns 0. -/
theorem stream_stops_at_failed_read (opts : Options) (env : Env) (fuel : Nat)
    (backend_id : Backend) (target_id : Target) (cap : Capture) (n : Nat)
    (frame : Nat → Image) (model : YuNet)
    (hhelp : opts.help = false)
    (hb : List.lookup opts.backend str2backend = some backend_id)
    (ht : List.lookup opts.target str2target = some target_id)
    (hin : opts.input.isEmpty = true)
    (hcap : env.capture = some cap)
    (hmodel : model = (initialModel opts backend_id target_id).setInputSize
      ⟨static_cast_int cap.width, static_cast_int cap.height⟩)
    (hkey : ∀ k, k ≤ n → env.waitKey k < 0)
    (hread : ∀ k, k < n → cap.read k = some (frame k))
    (hend : cap.read n = none)
    (h15 : ∀ k, k < n → (model.infer env (frame k)).Has15Cols)
    (hfuel : n + 1 ≤ fuel) :
    main opts env fuel =
      ⟨[Event.create (initialModel opts backend_id target_id),
        Event.videoCapture 0,
        Event.capGet CapProp.CAP_PROP_FRAME_WIDTH, Event.capGet CapProp.CAP_PROP_FRAME_HEIGHT,
        Event.setInputSize ⟨static_cast_int cap.width, static_cast_int cap.height⟩]
        ++ (List.range n).flatMap (fun k =>
          [Event.waitKey 1, Event.capRead, Event.tickStart, Event.detect (frame k),
           Event.tickStop, Event.tickGetFPS,
           Event.imshow "YuNet Demo"
             (rendered (frame k) (model.infer env (frame k)) (env.getFPS k)),
           Event.tickReset])
        ++ [Event.waitKey 1, Event.capRead, Event.cout "No frames grabbed! Exiting ...\n"],
       Outcome.returned 0⟩ := by
  subst hmodel
  rw [main_streaming opts env fuel backend_id target_id hhelp hb ht hin]
  have hloop := streamLoop_run env _ cap frame hcap n 0 fuel
    ([Event.create (initialModel opts backend_id target_id),
        Event.videoCapture 0,
        Event.capGet CapProp.CAP_PROP_FRAME_WIDTH, Event.capGet CapProp.CAP_PROP_FRAME_HEIGHT,
        Event.setInputSize ⟨static_cast_int cap.width, static_cast_int cap.height⟩]) hfuel
    (by simpa using hkey) (by simpa using hread) (by simpa using hend)
    (by simpa [YuNet.infer] using h15)
  simp only [streaming, hcap, capGet, List.cons_append, List.nil_append, List.append_assoc]
  simp only [List.cons_append, List.nil_append, List.append_assoc, iterationEvents,
    ← List.range_eq_range'] at hloop
  simp only [hloop, YuNet.infer]

/-- Witness for C8 with `n = 4`: four frames are inferred and displayed, the
fifth read fails right after the display of the fourth, and `main` returns 0. -/
theorem stream_stops_at_failed_read_witness :
    (∀ k, k ≤ 4 → fourFrameEnv.waitKey k < 0) ∧
    (∀ k, k < 4 → fourFrameCamera.read k = some sampleImage) ∧
    fourFrameCamera.read 4 = none ∧
    (main cameraOptions fourFrameEnv 5).outcome = Outcome.returned 0 ∧
    ((main cameraOptions fourFrameEnv 5).events.filter Event.isFrameWork).length = 8 ∧
    (main cameraOptions fourFrameEnv 5).events.reverse.take 10 =
      [Event.cout "No frames grabbed! Exiting ...\n", Event.capRead, Event.waitKey 1,
       Event.tickReset,
       Event.imshow "YuNet Demo" (rendered sampleImage sampleFaces ⟨30, 0⟩),
       Event.tickGetFPS, Event.tickStop, Event.detect sampleImage, Event.tickStart,
       Event.capRead] := by
  have hkey : ∀ k, k ≤ 4 → fourFrameEnv.waitKey k < 0 := fun _ _ => (by decide : (-1 : Int) < 0)
  have hread : ∀ k, k < 4 → fourFrameCamera.read k = some sampleImage := by
    intro k hk
    simp [fourFrameCamera, hk]
  have hrun := stream_stops_at_failed_read cameraOptions fourFrameEnv 5
    Backend.DNN_BACKEND_OPENCV Target.DNN_TARGET_CPU fourFrameCamera 4 (fun _ => sampleImage)
    _ rfl (by decide) (by decide) (by decide) rfl rfl hkey hread (by decide)
    (fun _ _ => sampleFaces_has15) (by decide)
  refine ⟨hkey, hread, by decide, ?_, ?_, ?_⟩
  · rw [hrun]
  · rw [hrun]
    decide
  · rw [hrun]
    decide

end YuNetDemo
